import Mathlib

/-
Verification of the Line repository specification.

The fungible token lives in
src/contracts/line_token/app/src/services/line_token/{funcs.rs, mod.rs};
the marketplace reward computation lives in
src/contracts/marketplace/app/src/services/marketplace/{funcs.rs, mod.rs}.

Embedding choices:
  - `ActorId` is `Nat`.
  - `U256` values are `Nat` together with the explicit bound 2 ^ 256;
    `checked_add` and `checked_mul` return `none` exactly when the Rust
    `checked_add` / `checked_mul` on `U256` would return `None`.
  - `HashMap` is an association list with unique keys: `aInsert` replaces
    the value at an existing key and appends a fresh key, `aRemove` deletes
    the key, `aGet` returns 0 for an absent key (the Rust code reads maps
    with `cloned().unwrap_or_default()`).
  - a Rust panic makes the whole operation return `none` (on Gear a panic
    aborts the message and its state changes are not committed).
-/

namespace Line

abbrev ActorId := Nat

/-- One more than the largest `U256` value. -/
def U256_LIMIT : Nat := 2 ^ 256

/-- `U256::checked_add`: `none` on overflow past 2 ^ 256 - 1. -/
def checked_add (a b : Nat) : Option Nat :=
  if a + b < U256_LIMIT then some (a + b) else none

/-- `U256::checked_mul`: `none` on overflow past 2 ^ 256 - 1. -/
def checked_mul (a b : Nat) : Option Nat :=
  if a * b < U256_LIMIT then some (a * b) else none

/-- Association-list read; absent keys read as 0, as
`map.get(&k).cloned().unwrap_or_default()` does. -/
def aGet {α : Type} [DecidableEq α] : List (α × Nat) → α → Nat
  | [], _ => 0
  | (k, v) :: rest, key => if k = key then v else aGet rest key

/-- Association-list membership, as `HashMap::contains_key`. -/
def aMem {α : Type} [DecidableEq α] (m : List (α × Nat)) (key : α) : Bool :=
  m.any (fun p => p.1 = key)

/-- Association-list insert, as `HashMap::insert`: replaces the value at an
existing key, otherwise appends the new entry. -/
def aInsert {α : Type} [DecidableEq α] : List (α × Nat) → α → Nat → List (α × Nat)
  | [], key, v => [(key, v)]
  | (k, w) :: rest, key, v =>
      if k = key then (key, v) :: rest else (k, w) :: aInsert rest key v

/-- Association-list removal, as `HashMap::remove`. -/
def aRemove {α : Type} [DecidableEq α] (m : List (α × Nat)) (key : α) : List (α × Nat) :=
  m.filter (fun p => p.1 ≠ key)

/-- Sum of all stored values of a map (entries have unique keys). -/
def sumVals {α : Type} (m : List (α × Nat)) : Nat :=
  (m.map Prod.snd).sum

/-- Token balances, `HashMap<ActorId, U256>`. -/
abbrev BalMap := List (ActorId × Nat)

/-- Allowances, `HashMap<(ActorId, ActorId), U256>` keyed by (owner, spender). -/
abbrev AllowMap := List ((ActorId × ActorId) × Nat)

/-- `funcs::balance_of` from line_token/funcs.rs. -/
def balance_of (balances : BalMap) (account : ActorId) : Nat :=
  aGet balances account

/-- `funcs::mint` from line_token/funcs.rs. Returns the new balances, the new
total supply, and the Rust return value; `none` models the overflow panics. -/
def mint (balances : BalMap) (total_supply : Nat) (dst : ActorId) (value : Nat) :
    Option (BalMap × Nat × Bool) :=
  if value = 0 then some (balances, total_supply, false)
  else
    match checked_add total_supply value with
    | none => none
    | some new_total_supply =>
      match checked_add (balance_of balances dst) value with
      | none => none
      | some new_balance =>
        some (aInsert balances dst new_balance, new_total_supply, true)

/-- `funcs::transfer` from line_token/funcs.rs, line for line: the recipient
balance `to_balance` is read from the map BEFORE the sender entry is written
back, and the recipient entry is written last. `none` models the
"Insufficient balance" and "Balance overflow" panics. -/
def transfer (balances : BalMap) (src dst : ActorId) (value : Nat) :
    Option (BalMap × Bool) :=
  if value = 0 then some (balances, false)
  else
    let from_balance := balance_of balances src
    if from_balance < value then none
    else
      let new_from_balance := from_balance - value
      let to_balance := balance_of balances dst
      match checked_add to_balance value with
      | none => none
      | some new_to_balance =>
        let balances1 :=
          if new_from_balance = 0 then aRemove balances src
          else aInsert balances src new_from_balance
        some (aInsert balances1 dst new_to_balance, true)

/-- The fields of line_token `Storage` that the verified claims touch. -/
structure Storage where
  balances : BalMap
  total_supply : Nat
  minters : List ActorId
  allowances : AllowMap
deriving DecidableEq, Repr

/-- `LineTokenService::init`: the deployer is the initial minter (it is also
the initial admin; admins are not needed by the claims). -/
def initStorage (deployer : ActorId) : Storage :=
  { balances := [], total_supply := 0, minters := [deployer], allowances := [] }

/-- `LineTokenService::mint`: panics unless the caller is a minter, then runs
`funcs::mint` and returns its value. -/
def svc_mint (st : Storage) (caller dst : ActorId) (value : Nat) :
    Option (Storage × Bool) :=
  if caller ∈ st.minters then
    match mint st.balances st.total_supply dst value with
    | none => none
    | some (b, ts, mutated) =>
      some ({ st with balances := b, total_supply := ts }, mutated)
  else none

/-- `LineTokenService::transfer`: the sender is the caller; runs
`funcs::transfer`. -/
def svc_transfer (st : Storage) (caller dst : ActorId) (value : Nat) :
    Option (Storage × Bool) :=
  match transfer st.balances caller dst value with
  | none => none
  | some (b, mutated) => some ({ st with balances := b }, mutated)

/-- `LineTokenService::approve`: unconditionally inserts the value at
(owner, spender) — also when `value = 0` — and returns `true`. -/
def svc_approve (st : Storage) (caller spender : ActorId) (value : Nat) :
    Storage × Bool :=
  ({ st with allowances := aInsert st.allowances (caller, spender) value }, true)

/-- `LineTokenService::transfer_from`: checks the (from, caller) allowance,
decrements it first (removing the entry when it reaches zero), then runs
`funcs::transfer`. `none` models the "Insufficient allowance" panic and the
panics inside `funcs::transfer`. -/
def svc_transfer_from (st : Storage) (caller src dst : ActorId) (value : Nat) :
    Option (Storage × Bool) :=
  let current_allowance := aGet st.allowances (src, caller)
  if current_allowance < value then none
  else
    let new_allowance := current_allowance - value
    let allowances1 :=
      if new_allowance = 0 then aRemove st.allowances (src, caller)
      else aInsert st.allowances (src, caller) new_allowance
    match transfer st.balances src dst value with
    | none => none
    | some (b, mutated) =>
      some ({ st with balances := b, allowances := allowances1 }, mutated)

/-- One externally callable fungible-token operation, tagged with its caller.
`withdraw` is omitted: its effect on balances and total supply is exactly
`funcs::mint` to the caller, guarded by signature machinery outside this
embedding. -/
inductive Op where
  | mint (caller dst : ActorId) (value : Nat)
  | transfer (caller dst : ActorId) (value : Nat)
  | transferFrom (caller src dst : ActorId) (value : Nat)
  | approve (caller spender : ActorId) (value : Nat)
deriving DecidableEq, Repr

/-- Apply one operation; `none` when the operation panics. -/
def applyOp (st : Storage) : Op → Option Storage
  | Op.mint c t v => (svc_mint st c t v).map Prod.fst
  | Op.transfer c t v => (svc_transfer st c t v).map Prod.fst
  | Op.transferFrom c f t v => (svc_transfer_from st c f t v).map Prod.fst
  | Op.approve c s v => some (svc_approve st c s v).1

/-- Run a sequence of operations; `none` as soon as one panics. -/
def run (st : Storage) : List Op → Option Storage
  | [] => some st
  | op :: rest =>
    match applyOp st op with
    | none => none
    | some st1 => run st1 rest

/-- Does the map hold an entry whose stored value is zero? -/
def hasZeroValue {α : Type} (m : List (α × Nat)) : Bool :=
  m.any (fun p => p.2 = 0)

/-- `funcs::calculate_finalizer_reward` from marketplace/funcs.rs:
returns 0 for `reward_bps = 0`, otherwise `highest_bid * reward_bps / 10000`
via `checked_mul`, with `unwrap_or_default()` — that is, 0 — when the
product overflows `U256`. -/
def calculate_finalizer_reward (highest_bid : Nat) (reward_bps : Nat) : Nat :=
  if reward_bps = 0 then 0
  else
    match checked_mul highest_bid reward_bps with
    | some product => product / 10000
    | none => 0

/-- The payout computation of `MarketplaceService::finalize_auction`
(mod.rs, winner branch): `finalizer_reward` from
`calculate_finalizer_reward` and `seller_payout = winning_bid -
finalizer_reward`. Returns (seller_payout, finalizer_reward). -/
def finalize_amounts (winning_bid : Nat) (reward_bps : Nat) : Nat × Nat :=
  let finalizer_reward := calculate_finalizer_reward winning_bid reward_bps
  let seller_payout := winning_bid - finalizer_reward
  (seller_payout, finalizer_reward)

/-- Reading an inserted key returns the inserted value. -/
theorem aGet_aInsert_self {α : Type} [DecidableEq α] (m : List (α × Nat)) (k : α) (v : Nat) :
    aGet (aInsert m k v) k = v := by
  induction m with
  | nil => simp [aInsert, aGet]
  | cons p rest ih =>
    obtain ⟨a, w⟩ := p
    by_cases h : a = k
    · simp [aInsert, aGet, h]
    · simp [aInsert, aGet, h, ih]

/-- An inserted key is present in the map. -/
theorem aMem_aInsert_self {α : Type} [DecidableEq α] (m : List (α × Nat)) (k : α) (v : Nat) :
    aMem (aInsert m k v) k = true := by
  induction m with
  | nil => simp [aInsert, aMem]
  | cons p rest ih =>
    obtain ⟨a, w⟩ := p
    by_cases h : a = k
    · simp [aInsert, aMem, h]
    · simp [aInsert, aMem, h] at ih ⊢
      exact ih

/-- A removed key is absent from the map. -/
theorem aMem_aRemove_self {α : Type} [DecidableEq α] (m : List (α × Nat)) (k : α) :
    aMem (aRemove m k) k = false := by
  simp [aRemove, aMem, List.any_eq_false, List.mem_filter]

/-- Claim C1, refuted at a concrete input. The claim says a self-transfer
(to = from = a) of v with balance_of a at least v returns true, emits
Transfer, and leaves balance_of a unchanged. On account 1 with balance 5,
transferring 5 to itself succeeds and returns true (so the service emits
Transfer), but the final balance is 10, not 5: `funcs::transfer` reads
`to_balance` from the map before writing the decremented sender entry, and
the final `insert` of `to` overwrites the sender entry, crediting v without
debiting it. -/
theorem C1_self_transfer_changes_balance :
    balance_of [(1, 5)] 1 = 5
    ∧ transfer [(1, 5)] 1 1 5 = some ([(1, 10)], true)
    ∧ svc_transfer { balances := [(1, 5)], total_supply := 5, minters := [1], allowances := [] } 1 1 5 = some ({ balances := [(1, 10)], total_supply := 5, minters := [1], allowances := [] }, true)
    ∧ balance_of [(1, 10)] 1 ≠ balance_of [(1, 5)] 1 := by decide

/-- Claim C2, refuted on a concrete reachable state. The claim says
total_supply equals the sum of all balances in every state reachable from
init by successful operations. From init (deployer 1), the successful
sequence mint(1, 5) followed by the self-transfer transfer(1 to 1, 5)
reaches a state with total_supply 5 but balance sum 10, because the
self-transfer credits the account without debiting it. -/
theorem C2_supply_invariant_violated :
    (run (initStorage 1) [Op.mint 1 1 5, Op.transfer 1 1 5]).map
        (fun st => (st.total_supply, sumVals st.balances)) = some (5, 10)
    ∧ (5 : Nat) ≠ 10 := by decide

/-- Claim C3, refuted at a concrete input: approve(spender 2, value 0) by
owner 1 returns true but stores the entry ((1, 2), 0) in the allowances map
rather than removing it, so the map does hold a zero-valued entry after
this one-operation sequence. -/
theorem C3_counterexample :
    (svc_approve (initStorage 1) 1 2 0).2 = true
    ∧ (svc_approve (initStorage 1) 1 2 0).1.allowances = [((1, 2), 0)]
    ∧ hasZeroValue (svc_approve (initStorage 1) 1 2 0).1.allowances = true
    ∧ aMem (svc_approve (initStorage 1) 1 2 0).1.allowances (1, 2) = true := by decide

/-- Claim C3 as amended: approve(spender, value) overwrites any prior
(owner, spender) entry with the given value and returns true for every
value; approve with value 0 stores an explicit zero entry (it does not
remove the entry, though allowance() still reads it as 0); only
transfer_from prunes the entry, removing it when the allowance is spent
down to exactly zero. -/
theorem C3_amended (st2 st st1 : Storage) (o s caller src dst : ActorId) (v w : Nat)
    (hcur : aGet st.allowances (src, caller) = w)
    (hrun : svc_transfer_from st caller src dst w = some (st1, true)) :
    (svc_approve st2 o s v).2 = true
    ∧ aGet (svc_approve st2 o s v).1.allowances (o, s) = v
    ∧ aMem (svc_approve st2 o s 0).1.allowances (o, s) = true
    ∧ aMem st1.allowances (src, caller) = false := by
  refine ⟨rfl, ?_, ?_, ?_⟩
  · simp [svc_approve, aGet_aInsert_self]
  · simp [svc_approve, aMem_aInsert_self]
  · unfold svc_transfer_from at hrun
    rw [hcur] at hrun
    simp at hrun
    cases hT : transfer st.balances src dst w with
    | none => rw [hT] at hrun; simp at hrun
    | some r =>
      obtain ⟨b, mutated⟩ := r
      rw [hT] at hrun
      simp at hrun
      have hal : st1.allowances = aRemove st.allowances (src, caller) := by
        rw [← hrun.1]
      rw [hal]
      exact aMem_aRemove_self _ _

/-- Claim C3 witness: the amended theorem applied at owner 1, spender 2,
value 5; and at a transfer_from by spender 2 that spends the full
allowance of 7 from owner 1, after which the entry is gone. -/
theorem C3_amended_witness :
    (svc_approve (initStorage 1) 1 2 5).2 = true
    ∧ aGet (svc_approve (initStorage 1) 1 2 5).1.allowances (1, 2) = 5
    ∧ aMem (svc_approve (initStorage 1) 1 2 0).1.allowances (1, 2) = true
    ∧ aMem ({ balances := [(1, 3), (3, 7)], total_supply := 10, minters := [1], allowances := [] } : Storage).allowances (1, 2) = false :=
  C3_amended (initStorage 1)
    { balances := [(1, 10)], total_supply := 10, minters := [1], allowances := [((1, 2), 7)] }
    { balances := [(1, 3), (3, 7)], total_supply := 10, minters := [1], allowances := [] }
    1 2 2 1 3 5 7 (by decide) (by decide)

/-- Claim C4, refuted at a concrete input. The claim says the reward is
floor(winning_bid * reward_bps / 10000) for every winning_bid and every
reward_bps up to 1000. At winning_bid = 2 ^ 256 - 1 and reward_bps = 2 the
product overflows U256, `checked_mul` yields `None`, and
`unwrap_or_default()` makes the computed reward 0 even though the floor
value is nonzero; the seller then receives the whole bid. -/
theorem C4_counterexample :
    (2 : Nat) ≤ 1000
    ∧ calculate_finalizer_reward (2 ^ 256 - 1) 2 = 0
    ∧ (2 ^ 256 - 1) * 2 / 10000 ≠ 0
    ∧ finalize_amounts (2 ^ 256 - 1) 2 = (2 ^ 256 - 1, 0) := by decide

/-- Claim C4 as amended: for reward_bps up to 1000, whenever
winning_bid * reward_bps does not overflow U256 the computed amounts are
seller_payout = winning_bid - floor(winning_bid * reward_bps / 10000) and
finalizer_reward = floor(winning_bid * reward_bps / 10000); when the
product overflows U256 the computed reward is 0; and reward_bps = 0 yields
reward exactly 0. -/
theorem C4_amended (winning_bid reward_bps : Nat) (hbps : reward_bps ≤ 1000) :
    (winning_bid * reward_bps < 2 ^ 256 →
        finalize_amounts winning_bid reward_bps
          = (winning_bid - winning_bid * reward_bps / 10000,
             winning_bid * reward_bps / 10000))
    ∧ (2 ^ 256 ≤ winning_bid * reward_bps →
        calculate_finalizer_reward winning_bid reward_bps = 0)
    ∧ (reward_bps = 0 → calculate_finalizer_reward winning_bid reward_bps = 0) := by
  refine ⟨?_, ?_, ?_⟩
  · intro h
    have h1 : winning_bid * reward_bps < U256_LIMIT := by
      simpa [U256_LIMIT] using h
    by_cases h0 : reward_bps = 0
    · subst h0
      simp [finalize_amounts, calculate_finalizer_reward]
    · simp [finalize_amounts, calculate_finalizer_reward, checked_mul, h0, h1]
  · intro h
    have h1 : ¬ winning_bid * reward_bps < U256_LIMIT := by
      simpa [U256_LIMIT] using Nat.not_lt.mpr h
    by_cases h0 : reward_bps = 0
    · subst h0
      simp [U256_LIMIT] at h1
    · simp [calculate_finalizer_reward, checked_mul, h0, h1]
  · intro h0
    simp [calculate_finalizer_reward, h0]

/-- Claim C4 witness: the amended theorem applied at winning_bid 1000 and
reward_bps 50 (0.5 percent), giving seller_payout 995 and reward 5. -/
theorem C4_amended_witness :
    (50 : Nat) ≤ 1000 ∧ finalize_amounts 1000 50 = (995, 5) :=
  ⟨by decide, ((C4_amended 1000 50 (by decide)).1 (by decide)).trans (by decide)⟩

end Line
